import Mathlib

/-!
Shallow embedding of the valuation core of the `mcp-fin-analyst` repository
(`src/fin-analyst/valuation_calculator.py`), together with theorems settling
the frozen claims about it.

Conventions of the embedding:
* Python floats are modelled as exact rationals (`ℚ`) for the nine valuation
  models; the growth estimator's fractional power (Python `**`) is modelled
  over the reals with `Real.rpow`.
* A Python exception caught by a model's bare `except` clause (in particular a
  `ZeroDivisionError`) is modelled by an explicit guard returning the same
  value the `except` branch returns, `(0, "N/A")`.  Every division performed
  by a model is therefore either guarded here exactly where Python would
  raise, or provably has a nonzero denominator.
* `float('inf')` (returned by `calculate_payback_time` when owner earnings
  are not positive) is modelled as `(⊤ : WithTop ℕ)`.
-/

/-- The categorical signal a valuation model emits: the strings
"BUY" / "HOLD" / "SELL" / "N/A" of the source. -/
inductive Signal
  | BUY
  | HOLD
  | SELL
  | NA
deriving DecidableEq

/-- The financial-metrics snapshot built by `get_financial_metrics`
(valuation_calculator.py, lines 32-65): one numeric field per dictionary key
(the `ticker` string is irrelevant to every claim and omitted).  A field
absent from the data source is 0, never null. -/
structure Metrics where
  current_price : ℚ
  shares_outstanding : ℚ
  market_cap : ℚ
  enterprise_value : ℚ
  revenue_ttm : ℚ
  ebitda_ttm : ℚ
  earnings_ttm : ℚ
  free_cash_flow_ttm : ℚ
  book_value : ℚ
  dividend_yield : ℚ
  growth_rate : ℚ
  beta : ℚ
  debt : ℚ
  cash : ℚ
  pe_ratio : ℚ
  peg_ratio : ℚ
  price_to_book : ℚ
  price_to_sales : ℚ
  ev_to_ebitda : ℚ
  eps : ℚ
  owner_earnings : ℚ
deriving DecidableEq

/-- The projected free cash flow for period `i` in `calculate_dcf`
(lines 116-124): `fcf_projections[i-1] = projFCF fcf g tg i`.  For periods
1-5 compound the base FCF at `g`; past period 5 decay the growth rate
geometrically (`g * 0.9 ^ (i - 5)`), floor it at `tg`, and compound off the
previous projected value. -/
def projFCF (fcf g tg : ℚ) : ℕ → ℚ
  | 0 => fcf
  | i + 1 =>
    if i + 1 ≤ 5 then fcf * (1 + g) ^ (i + 1)
    else projFCF fcf g tg i * (1 + max (g * (0.9 : ℚ) ^ (i + 1 - 5)) tg)

/-- `calculate_dcf` (lines 100-150).  Python defaults: `growth_rate=None`
(then the snapshot's growth rate is used), `discount_rate=0.10`,
`terminal_growth=0.03`, `years=10`.  The second guard collects exactly the
conditions under which the Python body raises (`ZeroDivisionError` from
`(1+discount_rate)**i` with `discount_rate = -1`, from
`discount_rate - terminal_growth = 0`, or from `current_price = 0` in the
margin; `IndexError` from `fcf_projections[-1]` when `years = 0`) and which
the bare `except` turns into `(0, "N/A")`. -/
def calculate_dcf (m : Metrics) (growth_rate : Option ℚ) (discount_rate : ℚ)
    (terminal_growth : ℚ) (years : ℕ) : ℚ × Signal :=
  let fcf := m.free_cash_flow_ttm
  let shares := m.shares_outstanding
  let current_price := m.current_price
  let g := growth_rate.getD m.growth_rate
  if fcf ≤ 0 ∨ shares ≤ 0 then (0, Signal.NA)
  else if discount_rate = -1 ∨ discount_rate = terminal_growth ∨
      current_price = 0 ∨ years = 0 then (0, Signal.NA)
  else
    let pv_fcf : ℚ :=
      ((List.range years).map
        (fun i => projFCF fcf g terminal_growth (i + 1) /
          (1 + discount_rate) ^ (i + 1))).sum
    let terminal_fcf := projFCF fcf g terminal_growth years * (1 + terminal_growth)
    let terminal_value := terminal_fcf / (discount_rate - terminal_growth)
    let pv_terminal := terminal_value / (1 + discount_rate) ^ years
    let total_value := pv_fcf + pv_terminal + m.cash - m.debt
    let intrinsic_value := total_value / shares
    let margin := (intrinsic_value - current_price) / current_price
    if margin > 0.20 then (intrinsic_value, Signal.BUY)
    else if margin < -0.20 then (intrinsic_value, Signal.SELL)
    else (intrinsic_value, Signal.HOLD)

/-- The `while cumulative < market_cap and years < 100` loop of
`calculate_payback_time` (lines 163-170), as structural recursion on the
remaining fuel `100 - years`: each iteration first compounds the current
earnings by `(1 + g)` and then adds them to the cumulative sum. -/
def paybackLoop (cap g : ℚ) (cumulative current : ℚ) (years fuel : ℕ) : ℕ :=
  match fuel with
  | 0 => years
  | fuel + 1 =>
    if cumulative < cap then
      paybackLoop cap g (cumulative + current * (1 + g)) (current * (1 + g))
        (years + 1) fuel
    else years

/-- The number of years `calculate_payback_time` computes for a snapshot
(entering the loop with `cumulative = 0`, `current_earnings = owner_earnings`,
`years = 0`, and at most 100 iterations). -/
def paybackYears (m : Metrics) : ℕ :=
  paybackLoop m.market_cap m.growth_rate 0 m.owner_earnings 0 100

/-- `calculate_payback_time` (lines 152-182).  `float('inf')` is `⊤`. -/
def calculate_payback_time (m : Metrics) : WithTop ℕ × Signal :=
  if m.owner_earnings ≤ 0 then ((⊤ : WithTop ℕ), Signal.NA)
  else
    let years := paybackYears m
    ((years : WithTop ℕ),
      if years ≤ 10 then Signal.BUY
      else if years ≤ 20 then Signal.HOLD
      else Signal.SELL)

/-- `calculate_owner_earnings_yield` (lines 184-206). -/
def calculate_owner_earnings_yield (m : Metrics) : ℚ × Signal :=
  if m.market_cap ≤ 0 then (0, Signal.NA)
  else
    let yield_pct := m.owner_earnings / m.market_cap * 100
    if yield_pct ≥ 10 then (yield_pct, Signal.BUY)
    else if yield_pct ≥ 5 then (yield_pct, Signal.HOLD)
    else (yield_pct, Signal.SELL)

/-- `calculate_graham_value` (lines 208-233).  Python default
`aaa_yield=4.4`.  The second guard is where Python would raise
(`ZeroDivisionError` from `aaa_yield = 0` or from `current_price = 0`),
caught by the bare `except` as `(0, "N/A")`. -/
def calculate_graham_value (m : Metrics) (aaa_yield : ℚ) : ℚ × Signal :=
  let eps := m.eps
  let growth_rate := m.growth_rate * 100
  let current_price := m.current_price
  if eps ≤ 0 then (0, Signal.NA)
  else if aaa_yield = 0 ∨ current_price = 0 then (0, Signal.NA)
  else
    let intrinsic_value := eps * (8.5 + 2 * growth_rate) * 4.4 / aaa_yield
    let margin := (intrinsic_value - current_price) / current_price
    if margin > 0.20 then (intrinsic_value, Signal.BUY)
    else if margin < -0.20 then (intrinsic_value, Signal.SELL)
    else (intrinsic_value, Signal.HOLD)

/-- The result dictionary of `analyze_multiples`: keys `'PE'` and
`'EV_EBITDA'`. -/
structure MultiplesResult where
  PE : ℚ × Signal
  EV_EBITDA : ℚ × Signal
deriving DecidableEq

/-- `analyze_multiples` (lines 235-270).  No division occurs, so no
exception is reachable. -/
def analyze_multiples (m : Metrics) : MultiplesResult :=
  let pe_ratio := m.pe_ratio
  let ev_ebitda := m.ev_to_ebitda
  let pe_signal :=
    if pe_ratio > 0 then
      if pe_ratio < 15 then Signal.BUY
      else if pe_ratio < 25 then Signal.HOLD
      else Signal.SELL
    else Signal.NA
  let ev_signal :=
    if ev_ebitda > 0 then
      if ev_ebitda < 10 then Signal.BUY
      else if ev_ebitda < 15 then Signal.HOLD
      else Signal.SELL
    else Signal.NA
  ⟨(pe_ratio, pe_signal), (ev_ebitda, ev_signal)⟩

/-- `calculate_asset_based_value` (lines 272-293). -/
def calculate_asset_based_value (m : Metrics) : ℚ × Signal :=
  if m.book_value ≤ 0 then (0, Signal.NA)
  else
    (m.book_value,
      if m.price_to_book < 1 then Signal.BUY
      else if m.price_to_book < 3 then Signal.HOLD
      else Signal.SELL)

/-- `calculate_sotp` (lines 295-321).  The second guard is where Python
would raise (`ZeroDivisionError` from `current_price = 0` in the margin),
caught as `(0, "N/A")`; division by `shares` is covered by the first guard. -/
def calculate_sotp (m : Metrics) : ℚ × Signal :=
  if m.enterprise_value ≤ 0 ∨ m.shares_outstanding ≤ 0 then (0, Signal.NA)
  else if m.current_price = 0 then (0, Signal.NA)
  else
    let sotp_value := (m.enterprise_value + m.cash - m.debt) / m.shares_outstanding
    let margin := (sotp_value - m.current_price) / m.current_price
    if margin > 0.20 then (sotp_value, Signal.BUY)
    else if margin < -0.20 then (sotp_value, Signal.SELL)
    else (sotp_value, Signal.HOLD)

/-- `calculate_ddm` (lines 323-352).  Python default `required_return=0.10`.
The growth rate is clamped to `required_return - 0.01`, so the Gordon
denominator is at least `0.01` and never raises; `current_price = 0` would
raise in the margin and is caught as `(0, "N/A")`. -/
def calculate_ddm (m : Metrics) (required_return : ℚ) : ℚ × Signal :=
  if m.dividend_yield ≤ 0 then (0, Signal.NA)
  else if m.current_price = 0 then (0, Signal.NA)
  else
    let annual_dividend := m.current_price * m.dividend_yield
    let growth_rate := min m.growth_rate (required_return - 0.01)
    let next_dividend := annual_dividend * (1 + growth_rate)
    let intrinsic_value := next_dividend / (required_return - growth_rate)
    let margin := (intrinsic_value - m.current_price) / m.current_price
    if margin > 0.20 then (intrinsic_value, Signal.BUY)
    else if margin < -0.20 then (intrinsic_value, Signal.SELL)
    else (intrinsic_value, Signal.HOLD)

/-- The `peg_ratios` dictionary of `calculate_peg_ratios`: keys
`'PE_PEG'`, `'PS_PEG'`, `'PB_PEG'`, `'PFCF_PEG'`. -/
structure PegRatios where
  PE_PEG : ℚ
  PS_PEG : ℚ
  PB_PEG : ℚ
  PFCF_PEG : ℚ
deriving DecidableEq

/-- `calculate_peg_ratios` (lines 354-402).  Each PEG entry is 0 when its
underlying ratio or the growth percentage is not positive; the rolled-up
signal averages the strictly positive entries (dictionary insertion order)
and is `N/A` when there is none. -/
def calculate_peg_ratios (m : Metrics) : PegRatios × Signal :=
  let growth_rate_pct := m.growth_rate * 100
  let pe_peg := if m.pe_ratio > 0 ∧ growth_rate_pct > 0
    then m.pe_ratio / growth_rate_pct else 0
  let ps_peg := if m.price_to_sales > 0 ∧ growth_rate_pct > 0
    then m.price_to_sales / growth_rate_pct else 0
  let pb_peg := if m.price_to_book > 0 ∧ growth_rate_pct > 0
    then m.price_to_book / growth_rate_pct else 0
  let pfcf_peg := if m.market_cap > 0 ∧ m.free_cash_flow_ttm > 0 ∧ growth_rate_pct > 0
    then m.market_cap / m.free_cash_flow_ttm / growth_rate_pct else 0
  let valid_pegs := [pe_peg, ps_peg, pb_peg, pfcf_peg].filter (fun v => decide (0 < v))
  let signal :=
    if valid_pegs = [] then Signal.NA
    else
      let avg_peg := valid_pegs.sum / (valid_pegs.length : ℚ)
      if avg_peg < 1 then Signal.BUY
      else if avg_peg < 2 then Signal.HOLD
      else Signal.SELL
  (⟨pe_peg, ps_peg, pb_peg, pfcf_peg⟩, signal)

/-- The result dictionary of `get_comprehensive_valuation`
(lines 404-418), with each model called at its Python default parameters. -/
structure ValuationBundle where
  dcf : ℚ × Signal
  payback_time : WithTop ℕ × Signal
  owner_earnings_yield : ℚ × Signal
  graham_value : ℚ × Signal
  multiples : MultiplesResult
  asset_based : ℚ × Signal
  sotp : ℚ × Signal
  ddm : ℚ × Signal
  peg_ratios : PegRatios × Signal
deriving DecidableEq

/-- `get_comprehensive_valuation` (lines 404-418): every model is invoked
independently on the same snapshot, at its default parameters. -/
def get_comprehensive_valuation (m : Metrics) : ValuationBundle :=
  { dcf := calculate_dcf m none 0.10 0.03 10
    payback_time := calculate_payback_time m
    owner_earnings_yield := calculate_owner_earnings_yield m
    graham_value := calculate_graham_value m 4.4
    multiples := analyze_multiples m
    asset_based := calculate_asset_based_value m
    sotp := calculate_sotp m
    ddm := calculate_ddm m 0.10
    peg_ratios := calculate_peg_ratios m }

/-- The outcome of the history access performed by `_calculate_growth_rate`
(lines 67-81): `exc` models an exception raised inside the `try` block
(swallowed by the bare `except`); `ok none` models `self.financials is None`
or no `'Total Revenue'` row (the fallback line is reached); `ok (some revs)`
is the `dropna()`-ed revenue series, ordered most-recent-first as
`yfinance` returns it (`iloc[0]` newest, `iloc[-1]` oldest). -/
inductive HistAccess
  | exc
  | ok (revenues : Option (List ℝ))

/-- The fallback expression `self.info.get('revenueGrowth', 0.05) or 0.05`
of `_calculate_growth_rate` (line 79): `none` models an absent (or
`None`-valued) `revenueGrowth` key, for which `.get` yields the default
0.05; a present value of exactly 0 is falsy, so Python's `or` replaces it
with 0.05 as well. -/
noncomputable def growthFallback (revenueGrowth : Option ℝ) : ℝ :=
  match revenueGrowth with
  | none => 0.05
  | some v => if v = 0 then 0.05 else v

/-- `_calculate_growth_rate` (lines 67-81).  With at least two revenue
entries it computes
`abs((revenues.iloc[0] / revenues.iloc[-1]) ** (1/(years-1)) - 1)` with
`years = len(revenues)` (line 75-76); otherwise it falls through to the
`revenueGrowth` fallback; an exception returns 0.05 directly. -/
noncomputable def calcGrowthRate (hist : HistAccess) (revenueGrowth : Option ℝ) : ℝ :=
  match hist with
  | .exc => 0.05
  | .ok none => growthFallback revenueGrowth
  | .ok (some revenues) =>
    if 2 ≤ revenues.length then
      |(revenues.headD 0 / revenues.getLastD 0) ^
        ((1 : ℝ) / ((revenues.length : ℝ) - 1)) - 1|
    else growthFallback revenueGrowth

/-- The growth formula exactly as the claim words it (for comparison with
`calcGrowthRate`): `(revenue_oldest / revenue_newest) ** (1/(years-1)) - 1`
in absolute value, on a series ordered most-recent-first, so the oldest
value is the last element and the newest the first. -/
noncomputable def claimedCAGR (revenues : List ℝ) : ℝ :=
  |(revenues.getLastD 0 / revenues.headD 0) ^
    ((1 : ℝ) / ((revenues.length : ℝ) - 1)) - 1|

/-- The vote tally of the signal aggregation: counts per signal category. -/
structure VoteTally where
  buy : ℕ
  hold : ℕ
  sell : ℕ
  na : ℕ
deriving DecidableEq

/-- Modelled from the spec: the repository performs signal aggregation only
through a natural-language LLM task prompt (`finance_crew.py`,
`valuation_analysis_task`, lines 184-205, and the `ValuationOutput` count
fields); no deterministic aggregator function exists in the source.  Per the
spec's SignalAggregator contract, the tally counts each signal category
across the nine rolled-up model signals. -/
def tallySignals (signals : List Signal) : VoteTally :=
  { buy := signals.count Signal.BUY
    hold := signals.count Signal.HOLD
    sell := signals.count Signal.SELL
    na := signals.count Signal.NA }

/-- Modelled from the spec: the final recommendation is the majority vote
among BUY / HOLD / SELL, with N/A excluded from the denominator but reported
separately, and ties resolved to HOLD (the spec's documented default for its
open tie-break question). -/
def finalRecommendation (t : VoteTally) : Signal :=
  if t.buy > t.hold ∧ t.buy > t.sell then Signal.BUY
  else if t.sell > t.buy ∧ t.sell > t.hold then Signal.SELL
  else Signal.HOLD

/-- The all-zero snapshot: every numeric field 0. -/
def zeroMetrics : Metrics :=
  { current_price := 0, shares_outstanding := 0, market_cap := 0,
    enterprise_value := 0, revenue_ttm := 0, ebitda_ttm := 0,
    earnings_ttm := 0, free_cash_flow_ttm := 0, book_value := 0,
    dividend_yield := 0, growth_rate := 0, beta := 0, debt := 0, cash := 0,
    pe_ratio := 0, peg_ratio := 0, price_to_book := 0, price_to_sales := 0,
    ev_to_ebitda := 0, eps := 0, owner_earnings := 0 }

/-- The set of signal strings a model may emit. -/
def allSignals : List Signal := [Signal.BUY, Signal.HOLD, Signal.SELL, Signal.NA]

/-- A snapshot whose only nonzero fields are `owner_earnings = 1`: market cap
is zero. -/
def zeroCapExample : Metrics := { zeroMetrics with owner_earnings := 1 }

/-- C2: for every snapshot and every choice of model parameters, each of the
nine valuation models returns a pair whose signal is one of BUY, HOLD, SELL,
N/A; the models are total functions (every Python exception path is a guard
returning N/A), so no null and no escaping exception is possible. -/
theorem C2_every_model_signal_total (m : Metrics) (g : Option ℚ)
    (dr tg aaa rr : ℚ) (years : ℕ) :
    (calculate_dcf m g dr tg years).2 ∈ allSignals ∧
    (calculate_payback_time m).2 ∈ allSignals ∧
    (calculate_owner_earnings_yield m).2 ∈ allSignals ∧
    (calculate_graham_value m aaa).2 ∈ allSignals ∧
    (analyze_multiples m).PE.2 ∈ allSignals ∧
    (analyze_multiples m).EV_EBITDA.2 ∈ allSignals ∧
    (calculate_asset_based_value m).2 ∈ allSignals ∧
    (calculate_sotp m).2 ∈ allSignals ∧
    (calculate_ddm m rr).2 ∈ allSignals ∧
    (calculate_peg_ratios m).2 ∈ allSignals := by
  have hall : ∀ s : Signal, s ∈ allSignals := by
    intro s; cases s <;> simp [allSignals]
  exact ⟨hall _, hall _, hall _, hall _, hall _, hall _, hall _, hall _,
    hall _, hall _⟩

/-- C3: on the all-zero snapshot every one of the nine valuation models
(the two sub-results of the multiples model included) degrades to signal
N/A; no model raises (each is a total function whose exception paths are the
explicit N/A guards). -/
theorem C3_all_zero_snapshot_all_NA :
    (get_comprehensive_valuation zeroMetrics).dcf.2 = Signal.NA ∧
    (get_comprehensive_valuation zeroMetrics).payback_time.2 = Signal.NA ∧
    (get_comprehensive_valuation zeroMetrics).owner_earnings_yield.2 = Signal.NA ∧
    (get_comprehensive_valuation zeroMetrics).graham_value.2 = Signal.NA ∧
    (get_comprehensive_valuation zeroMetrics).multiples.PE.2 = Signal.NA ∧
    (get_comprehensive_valuation zeroMetrics).multiples.EV_EBITDA.2 = Signal.NA ∧
    (get_comprehensive_valuation zeroMetrics).asset_based.2 = Signal.NA ∧
    (get_comprehensive_valuation zeroMetrics).sotp.2 = Signal.NA ∧
    (get_comprehensive_valuation zeroMetrics).ddm.2 = Signal.NA ∧
    (get_comprehensive_valuation zeroMetrics).peg_ratios.2 = Signal.NA := by
  decide

/-- C9: on the nine rolled-up signals 5 BUY, 2 HOLD, 1 SELL, 1 N/A, the
aggregator's tally is buy 5, hold 2, sell 1, na 1, and the majority vote
(N/A excluded from the comparison but reported) is BUY. -/
theorem C9_aggregator_majority_example :
    tallySignals [Signal.BUY, Signal.BUY, Signal.BUY, Signal.BUY, Signal.BUY,
        Signal.HOLD, Signal.HOLD, Signal.SELL, Signal.NA] =
      ⟨5, 2, 1, 1⟩ ∧
    finalRecommendation
      (tallySignals [Signal.BUY, Signal.BUY, Signal.BUY, Signal.BUY, Signal.BUY,
        Signal.HOLD, Signal.HOLD, Signal.SELL, Signal.NA]) = Signal.BUY := by
  decide

/-- C10: with positive owner earnings and a non-positive market cap the
payback loop's entry condition `cumulative < market_cap` is already false at
`cumulative = 0`, so the loop never iterates: the model returns 0 years and,
since 0 is at most 10, signal BUY. -/
theorem C10_nonpositive_market_cap_payback (m : Metrics)
    (h1 : 0 < m.owner_earnings) (h2 : m.market_cap ≤ 0) :
    paybackYears m = 0 ∧
    calculate_payback_time m = ((0 : WithTop ℕ), Signal.BUY) := by
  have hy : paybackYears m = 0 := by
    have hstep : paybackLoop m.market_cap m.growth_rate 0 m.owner_earnings 0 100 =
        if (0 : ℚ) < m.market_cap then
          paybackLoop m.market_cap m.growth_rate
            (0 + m.owner_earnings * (1 + m.growth_rate))
            (m.owner_earnings * (1 + m.growth_rate)) 1 99
        else 0 := rfl
    rw [paybackYears, hstep, if_neg (not_lt.mpr h2)]
  refine ⟨hy, ?_⟩
  simp only [calculate_payback_time, if_neg (not_le.mpr h1), hy]
  simp

/-- Witness for C10 at a concrete snapshot: owner earnings 1, market cap 0. -/
theorem C10_nonpositive_market_cap_payback_witness :
    paybackYears zeroCapExample = 0 ∧
    calculate_payback_time zeroCapExample = ((0 : WithTop ℕ), Signal.BUY) :=
  C10_nonpositive_market_cap_payback zeroCapExample (by decide) (by decide)

/-- The margin-rule signal policy as the claim states it, as a property of a
model result `r` and the snapshot price: BUY exactly when the margin
`(value - price) / price` strictly exceeds 0.20, SELL exactly when it is
strictly below -0.20, HOLD exactly on the closed band in between. -/
def marginRuleSpec (r : ℚ × Signal) (price : ℚ) : Prop :=
  (r.2 = Signal.BUY ↔ (r.1 - price) / price > 0.20) ∧
  (r.2 = Signal.SELL ↔ (r.1 - price) / price < -0.20) ∧
  (r.2 = Signal.HOLD ↔
    -0.20 ≤ (r.1 - price) / price ∧ (r.1 - price) / price ≤ 0.20)

/-- The shared `if margin > 0.20 / elif margin < -0.20 / else` block of the
margin-rule models satisfies the margin-rule characterization. -/
theorem marginSignal_spec (iv price : ℚ) :
    marginRuleSpec
      (if (iv - price) / price > 0.20 then (iv, Signal.BUY)
       else if (iv - price) / price < -0.20 then (iv, Signal.SELL)
       else (iv, Signal.HOLD)) price := by
  unfold marginRuleSpec
  split_ifs with h1 h2
  · exact ⟨⟨fun _ => h1, fun _ => rfl⟩,
      ⟨fun h => by simp at h, fun h => absurd h (by linarith)⟩,
      ⟨fun h => by simp at h, fun h => absurd h1 (not_lt.mpr h.2)⟩⟩
  · exact ⟨⟨fun h => by simp at h, fun h => absurd h h1⟩,
      ⟨fun _ => h2, fun _ => rfl⟩,
      ⟨fun h => by simp at h, fun h => absurd h2 (not_lt.mpr h.1)⟩⟩
  · exact ⟨⟨fun h => by simp at h, fun h => absurd h h1⟩,
      ⟨fun h => by simp at h, fun h => absurd h h2⟩,
      ⟨fun _ => ⟨not_lt.mp h2, not_lt.mp h1⟩, fun _ => rfl⟩⟩

/-- C1: every margin-rule model (DCF, Graham, SOTP, DDM) whose value is
actually computed (its data guards pass and no division raises) on a
snapshot with positive current price assigns its signal by the strict
±20 percent margin rule; in particular a margin of exactly 0.20 or exactly
-0.20 falls in the HOLD band. -/
theorem C1_margin_rule_models (m : Metrics) (g : Option ℚ) (dr tg aaa rr : ℚ)
    (years : ℕ) (hp : 0 < m.current_price) :
    (0 < m.free_cash_flow_ttm → 0 < m.shares_outstanding → dr ≠ -1 → dr ≠ tg →
      years ≠ 0 → marginRuleSpec (calculate_dcf m g dr tg years) m.current_price) ∧
    (0 < m.eps → aaa ≠ 0 →
      marginRuleSpec (calculate_graham_value m aaa) m.current_price) ∧
    (0 < m.enterprise_value → 0 < m.shares_outstanding →
      marginRuleSpec (calculate_sotp m) m.current_price) ∧
    (0 < m.dividend_yield → marginRuleSpec (calculate_ddm m rr) m.current_price) := by
  have hp0 : m.current_price ≠ 0 := ne_of_gt hp
  refine ⟨?_, ?_, ?_, ?_⟩
  · intro h1 h2 h3 h4 h5
    have hA : ¬(m.free_cash_flow_ttm ≤ 0 ∨ m.shares_outstanding ≤ 0) := by
      push_neg; exact ⟨h1, h2⟩
    have hB : ¬(dr = -1 ∨ dr = tg ∨ m.current_price = 0 ∨ years = 0) := by
      push_neg; exact ⟨h3, h4, hp0, h5⟩
    simp only [calculate_dcf]
    rw [if_neg hA, if_neg hB]
    exact marginSignal_spec _ _
  · intro h1 h2
    have hA : ¬(m.eps ≤ 0) := not_le.mpr h1
    have hB : ¬(aaa = 0 ∨ m.current_price = 0) := by push_neg; exact ⟨h2, hp0⟩
    simp only [calculate_graham_value]
    rw [if_neg hA, if_neg hB]
    exact marginSignal_spec _ _
  · intro h1 h2
    have hA : ¬(m.enterprise_value ≤ 0 ∨ m.shares_outstanding ≤ 0) := by
      push_neg; exact ⟨h1, h2⟩
    simp only [calculate_sotp]
    rw [if_neg hA, if_neg hp0]
    exact marginSignal_spec _ _
  · intro h1
    have hA : ¬(m.dividend_yield ≤ 0) := not_le.mpr h1
    simp only [calculate_ddm]
    rw [if_neg hA, if_neg hp0]
    exact marginSignal_spec _ _

/-- A snapshot on which all four margin-rule models compute a value:
price 100, FCF 10, one share, EPS 5, enterprise value 150, dividend
yield 0.02, growth 0. -/
def marginExample : Metrics :=
  { zeroMetrics with
    current_price := 100
    free_cash_flow_ttm := 10
    shares_outstanding := 1
    eps := 5
    enterprise_value := 150
    dividend_yield := 0.02 }

/-- Witness for C1: the margin-rule characterization instantiated on a
concrete snapshot for all four models (DCF called with growth 0, discount
rate 1, terminal growth 0, 10 years; Graham with AAA yield 4.4; DDM with
required return 0.10). -/
theorem C1_margin_rule_models_witness :
    marginRuleSpec (calculate_dcf marginExample (some 0) 1 0 10)
      marginExample.current_price ∧
    marginRuleSpec (calculate_graham_value marginExample 4.4)
      marginExample.current_price ∧
    marginRuleSpec (calculate_sotp marginExample) marginExample.current_price ∧
    marginRuleSpec (calculate_ddm marginExample 0.10)
      marginExample.current_price := by
  have h := C1_margin_rule_models marginExample (some 0) 1 0 4.4 0.10 10
    (by norm_num [marginExample, zeroMetrics])
  exact ⟨h.1 (by norm_num [marginExample, zeroMetrics])
      (by norm_num [marginExample, zeroMetrics]) (by norm_num) (by norm_num)
      (by norm_num),
    h.2.1 (by norm_num [marginExample, zeroMetrics]) (by norm_num),
    h.2.2.1 (by norm_num [marginExample, zeroMetrics])
      (by norm_num [marginExample, zeroMetrics]),
    h.2.2.2 (by norm_num [marginExample, zeroMetrics])⟩

/-- A snapshot with positive FCF, one share and price 1, used to exercise
the DCF with a discount rate strictly below the terminal growth rate. -/
def dcfSpreadExample : Metrics :=
  { zeroMetrics with
    current_price := 1
    free_cash_flow_ttm := 1
    shares_outstanding := 1 }

/-- C5 counterexample: with FCF 1, one share, price 1, growth 0, discount
rate 0 and terminal growth 0.03 the DCF's preconditions hold and the
discount rate does not exceed the terminal growth, yet the model does not
return (0, N/A): the negative Gordon spread produces a negative terminal
value and the model emits SELL.  Only the exact-equality spread is
(implicitly) guarded, via the caught ZeroDivisionError. -/
theorem C5_counterexample :
    (0 : ℚ) < dcfSpreadExample.free_cash_flow_ttm ∧
    (0 : ℚ) < dcfSpreadExample.shares_outstanding ∧
    (0 : ℚ) < dcfSpreadExample.current_price ∧
    (0 : ℚ) ≤ (0.03 : ℚ) ∧
    (calculate_dcf dcfSpreadExample (some 0) 0 0.03 10).2 = Signal.SELL ∧
    calculate_dcf dcfSpreadExample (some 0) 0 0.03 10 ≠ (0, Signal.NA) := by
  refine ⟨by norm_num [dcfSpreadExample, zeroMetrics],
    by norm_num [dcfSpreadExample, zeroMetrics],
    by norm_num [dcfSpreadExample, zeroMetrics], by norm_num, ?_, ?_⟩ <;>
  norm_num [calculate_dcf, projFCF, dcfSpreadExample, zeroMetrics,
    List.range_succ]

/-- C5 amended: the DCF returns (0, N/A) whenever the discount rate is
exactly equal to the terminal growth rate (the terminal-value division by
zero raises and the bare except returns N/A); a discount rate strictly
below the terminal growth rate is not guarded. -/
theorem C5_dcf_zero_spread_NA (m : Metrics) (g : Option ℚ) (dr tg : ℚ)
    (years : ℕ) (h : dr = tg) :
    calculate_dcf m g dr tg years = (0, Signal.NA) := by
  simp only [calculate_dcf]
  by_cases hA : m.free_cash_flow_ttm ≤ 0 ∨ m.shares_outstanding ≤ 0
  · rw [if_pos hA]
  · rw [if_neg hA, if_pos (Or.inr (Or.inl h))]

/-- Witness for C5 amended: zero spread at a snapshot whose data guards
pass. -/
theorem C5_dcf_zero_spread_NA_witness :
    calculate_dcf marginExample none 0.03 0.03 10 = (0, Signal.NA) :=
  C5_dcf_zero_spread_NA marginExample none 0.03 0.03 10 rfl

/-- C6 counterexample: on the all-zero snapshot the payback-time model's
required input (owner earnings) is zero and the model does return signal
N/A, but its value is infinity, not 0. -/
theorem C6_counterexample :
    zeroMetrics.owner_earnings = 0 ∧
    (calculate_payback_time zeroMetrics).2 = Signal.NA ∧
    (calculate_payback_time zeroMetrics).1 = (⊤ : WithTop ℕ) ∧
    calculate_payback_time zeroMetrics ≠ ((0 : WithTop ℕ), Signal.NA) := by
  refine ⟨rfl, ?_, ?_, ?_⟩ <;> simp [calculate_payback_time, zeroMetrics]

/-- C6 amended: when a model's required input field is zero (the absent
field convention), that model returns signal N/A, with value 0 for every
model except payback time, whose value is infinity (and PEG, whose value is
the all-zero ratio record); the failure is local: each entry of the
comprehensive bundle is that model's own function of the shared snapshot
alone. -/
theorem C6_missing_field_local_NA (m : Metrics) :
    (m.free_cash_flow_ttm = 0 →
      calculate_dcf m none 0.10 0.03 10 = (0, Signal.NA)) ∧
    (m.owner_earnings = 0 →
      calculate_payback_time m = ((⊤ : WithTop ℕ), Signal.NA)) ∧
    (m.market_cap = 0 → calculate_owner_earnings_yield m = (0, Signal.NA)) ∧
    (m.eps = 0 → calculate_graham_value m 4.4 = (0, Signal.NA)) ∧
    (m.pe_ratio = 0 → (analyze_multiples m).PE = (0, Signal.NA)) ∧
    (m.ev_to_ebitda = 0 → (analyze_multiples m).EV_EBITDA = (0, Signal.NA)) ∧
    (m.book_value = 0 → calculate_asset_based_value m = (0, Signal.NA)) ∧
    (m.enterprise_value = 0 → calculate_sotp m = (0, Signal.NA)) ∧
    (m.dividend_yield = 0 → calculate_ddm m 0.10 = (0, Signal.NA)) ∧
    (m.growth_rate = 0 →
      calculate_peg_ratios m = (⟨0, 0, 0, 0⟩, Signal.NA)) ∧
    get_comprehensive_valuation m =
      { dcf := calculate_dcf m none 0.10 0.03 10
        payback_time := calculate_payback_time m
        owner_earnings_yield := calculate_owner_earnings_yield m
        graham_value := calculate_graham_value m 4.4
        multiples := analyze_multiples m
        asset_based := calculate_asset_based_value m
        sotp := calculate_sotp m
        ddm := calculate_ddm m 0.10
        peg_ratios := calculate_peg_ratios m } := by
  refine ⟨?_, ?_, ?_, ?_, ?_, ?_, ?_, ?_, ?_, ?_, rfl⟩ <;> intro h
  · simp only [calculate_dcf]
    rw [if_pos (Or.inl (le_of_eq h))]
  · simp only [calculate_payback_time]
    rw [if_pos (le_of_eq h)]
  · simp only [calculate_owner_earnings_yield]
    rw [if_pos (le_of_eq h)]
  · simp only [calculate_graham_value]
    rw [if_pos (le_of_eq h)]
  · simp [analyze_multiples, h]
  · simp [analyze_multiples, h]
  · simp only [calculate_asset_based_value]
    rw [if_pos (le_of_eq h)]
  · simp only [calculate_sotp]
    rw [if_pos (Or.inl (le_of_eq h))]
  · simp only [calculate_ddm]
    rw [if_pos (le_of_eq h)]
  · simp [calculate_peg_ratios, h]

/-- Witness for C6 amended, at the all-zero snapshot. -/
theorem C6_missing_field_local_NA_witness :
    calculate_dcf zeroMetrics none 0.10 0.03 10 = (0, Signal.NA) ∧
    calculate_payback_time zeroMetrics = ((⊤ : WithTop ℕ), Signal.NA) ∧
    calculate_owner_earnings_yield zeroMetrics = (0, Signal.NA) ∧
    calculate_peg_ratios zeroMetrics = (⟨0, 0, 0, 0⟩, Signal.NA) := by
  have h := C6_missing_field_local_NA zeroMetrics
  exact ⟨h.1 rfl, h.2.1 rfl, h.2.2.1 rfl, h.2.2.2.2.2.2.2.2.2.1 rfl⟩

/-- The cumulative owner earnings after `y` loop iterations of
`calculate_payback_time`: the sum of the owner earnings compounded once per
elapsed year, `oe * (1+g)^1 + oe * (1+g)^2 + ... + oe * (1+g)^y`. -/
def paybackCum (oe g : ℚ) (y : ℕ) : ℚ :=
  ((List.range y).map (fun i => oe * (1 + g) ^ (i + 1))).sum

/-- One more year of cumulative owner earnings adds the next compounded
term. -/
theorem paybackCum_succ (oe g : ℚ) (y : ℕ) :
    paybackCum oe g (y + 1) = paybackCum oe g y + oe * (1 + g) ^ (y + 1) := by
  simp [paybackCum, List.range_succ]

/-- Invariant of the payback while-loop: entered at year `years` with the
matching cumulative sum and current earnings, it stops at the first year
whose cumulative sum reaches the cap, or after exhausting its fuel. -/
theorem paybackLoop_spec (cap oe g : ℚ) (fuel : ℕ) : ∀ years : ℕ,
    years ≤ paybackLoop cap g (paybackCum oe g years)
      (oe * (1 + g) ^ years) years fuel ∧
    paybackLoop cap g (paybackCum oe g years)
      (oe * (1 + g) ^ years) years fuel ≤ years + fuel ∧
    (∀ y, years ≤ y →
      y < paybackLoop cap g (paybackCum oe g years)
        (oe * (1 + g) ^ years) years fuel →
      paybackCum oe g y < cap) ∧
    (paybackLoop cap g (paybackCum oe g years)
        (oe * (1 + g) ^ years) years fuel < years + fuel →
      cap ≤ paybackCum oe g (paybackLoop cap g (paybackCum oe g years)
        (oe * (1 + g) ^ years) years fuel)) := by
  induction fuel with
  | zero =>
    intro years
    have hstep : paybackLoop cap g (paybackCum oe g years)
        (oe * (1 + g) ^ years) years 0 = years := rfl
    rw [hstep]
    exact ⟨le_rfl, Nat.le_add_right _ _, fun y hy1 hy2 => absurd hy2 (by omega),
      fun hlt => absurd hlt (by omega)⟩
  | succ fuel ih =>
    intro years
    by_cases h : paybackCum oe g years < cap
    · have hstep : paybackLoop cap g (paybackCum oe g years)
          (oe * (1 + g) ^ years) years (fuel + 1) =
          paybackLoop cap g (paybackCum oe g (years + 1))
            (oe * (1 + g) ^ (years + 1)) (years + 1) fuel := by
        have e1 : paybackCum oe g years + oe * (1 + g) ^ years * (1 + g) =
            paybackCum oe g (years + 1) := by
          rw [paybackCum_succ]; ring
        have e2 : oe * (1 + g) ^ years * (1 + g) = oe * (1 + g) ^ (years + 1) := by
          ring
        simp only [paybackLoop]
        rw [if_pos h, e1, e2]
      rw [hstep]
      obtain ⟨ih1, ih2, ih3, ih4⟩ := ih (years + 1)
      refine ⟨by omega, by omega, ?_, fun hlt => ih4 (by omega)⟩
      intro y hy1 hy2
      rcases Nat.eq_or_lt_of_le hy1 with hy | hy
      · rw [← hy]; exact h
      · exact ih3 y hy hy2
    · have hstep : paybackLoop cap g (paybackCum oe g years)
          (oe * (1 + g) ^ years) years (fuel + 1) = years := by
        simp only [paybackLoop]
        rw [if_neg h]
      rw [hstep]
      exact ⟨le_rfl, Nat.le_add_right _ _, fun y hy1 hy2 => absurd hy2 (by omega),
        fun _ => not_lt.mp h⟩

/-- Whenever the cap is reachable within the 100-iteration budget, the loop
of `calculate_payback_time` computes the least year whose cumulative
compounded owner earnings reach the market cap. -/
theorem paybackYears_least (m : Metrics)
    (hex : ∃ y, y ≤ 100 ∧
      m.market_cap ≤ paybackCum m.owner_earnings m.growth_rate y) :
    m.market_cap ≤ paybackCum m.owner_earnings m.growth_rate (paybackYears m) ∧
    ∀ y < paybackYears m,
      paybackCum m.owner_earnings m.growth_rate y < m.market_cap := by
  have h0 : paybackCum m.owner_earnings m.growth_rate 0 = 0 := by
    simp [paybackCum]
  have h1 : m.owner_earnings * (1 + m.growth_rate) ^ (0 : ℕ) = m.owner_earnings := by
    ring
  obtain ⟨s1, s2, s3, s4⟩ :=
    paybackLoop_spec m.market_cap m.owner_earnings m.growth_rate 100 0
  rw [h0, h1] at s2 s3 s4
  have hpy : paybackLoop m.market_cap m.growth_rate 0 m.owner_earnings 0 100 =
      paybackYears m := rfl
  rw [hpy] at s2 s3 s4
  refine ⟨?_, fun y hy => s3 y (Nat.zero_le y) hy⟩
  rcases lt_or_eq_of_le s2 with hlt | heq
  · exact s4 (by omega)
  · obtain ⟨y, hy100, hcy⟩ := hex
    rcases lt_or_eq_of_le hy100 with hylt | hyeq
    · exact absurd (s3 y (Nat.zero_le y) (by omega)) (not_lt.mpr hcy)
    · have hpy100 : paybackYears m = y := by omega
      rw [hpy100]; exact hcy

/-- The payback example snapshot of the claim: owner earnings 10, market
cap 100, growth 0. -/
def paybackExample : Metrics :=
  { zeroMetrics with
    market_cap := 100
    owner_earnings := 10 }

set_option maxRecDepth 8000 in
/-- C7: the payback-time model returns the least number of years at which
the cumulative compounded owner earnings reach the market cap (whenever
that happens within the 100-iteration cap), and signals BUY when the years
are at most 10, HOLD when at most 20, SELL otherwise; on the snapshot with
owner earnings 10, market cap 100 and growth 0 it returns exactly 10 years
with signal BUY. -/
theorem C7_payback_time_least_years :
    calculate_payback_time paybackExample = ((10 : WithTop ℕ), Signal.BUY) ∧
    ∀ m : Metrics, 0 < m.owner_earnings →
      (∃ y, y ≤ 100 ∧
        m.market_cap ≤ paybackCum m.owner_earnings m.growth_rate y) →
      m.market_cap ≤
        paybackCum m.owner_earnings m.growth_rate (paybackYears m) ∧
      (∀ y < paybackYears m,
        paybackCum m.owner_earnings m.growth_rate y < m.market_cap) ∧
      calculate_payback_time m = ((paybackYears m : WithTop ℕ),
        if paybackYears m ≤ 10 then Signal.BUY
        else if paybackYears m ≤ 20 then Signal.HOLD
        else Signal.SELL) := by
  constructor
  · norm_num [calculate_payback_time, paybackYears, paybackLoop,
      paybackExample, zeroMetrics]
  · intro m hoe hex
    obtain ⟨hreach, hmin⟩ := paybackYears_least m hex
    refine ⟨hreach, hmin, ?_⟩
    simp only [calculate_payback_time]
    rw [if_neg (not_le.mpr hoe)]

/-- Witness for C7's general part, instantiated at the example snapshot. -/
theorem C7_payback_time_least_years_witness :
    paybackExample.market_cap ≤
      paybackCum paybackExample.owner_earnings paybackExample.growth_rate
        (paybackYears paybackExample) ∧
    calculate_payback_time paybackExample =
      ((paybackYears paybackExample : WithTop ℕ),
        if paybackYears paybackExample ≤ 10 then Signal.BUY
        else if paybackYears paybackExample ≤ 20 then Signal.HOLD
        else Signal.SELL) := by
  have h := C7_payback_time_least_years.2 paybackExample
    (by norm_num [paybackExample, zeroMetrics])
    ⟨10, by norm_num,
      by norm_num [paybackCum, paybackExample, zeroMetrics, List.range_succ]⟩
  exact ⟨h.1, h.2.2⟩

/-- On a two-element revenue series the exponent `1/(years-1)` is 1, so the
estimator's value is exactly `|first / last - 1|`. -/
theorem calcGrowthRate_pair (a b : ℝ) :
    calcGrowthRate (.ok (some [a, b])) none = |a / b - 1| := by
  have hlen : (2 : ℕ) ≤ ([a, b] : List ℝ).length := by simp
  simp only [calcGrowthRate, if_pos hlen]
  norm_num [Real.rpow_one, List.getLastD]

/-- On a two-element series the claim's formula is `|last / first - 1|`. -/
theorem claimedCAGR_pair (a b : ℝ) :
    claimedCAGR [a, b] = |b / a - 1| := by
  simp only [claimedCAGR]
  norm_num [Real.rpow_one, List.getLastD]

/-- C4 counterexample: on the most-recent-first series [121, 100] the
estimator returns |121/100 - 1| = 21/100 (newest over oldest), while the
claim's formula (oldest over newest) yields |100/121 - 1| = 21/121; the two
differ. -/
theorem C4_counterexample :
    calcGrowthRate (.ok (some [121, 100])) none = 21 / 100 ∧
    claimedCAGR [121, 100] = 21 / 121 ∧
    (21 / 100 : ℝ) ≠ 21 / 121 := by
  refine ⟨?_, ?_, by norm_num⟩
  · rw [calcGrowthRate_pair,
      show (121 : ℝ) / 100 - 1 = 21 / 100 by norm_num,
      abs_of_nonneg (by norm_num : (0 : ℝ) ≤ 21 / 100)]
  · rw [claimedCAGR_pair,
      show (100 : ℝ) / 121 - 1 = -(21 / 121) by norm_num, abs_neg,
      abs_of_nonneg (by norm_num : (0 : ℝ) ≤ 21 / 121)]

/-- C4 amended: with at least two years of history the estimator returns
the absolute value of `(revenue_newest / revenue_oldest) ** (1/(years-1)) - 1`,
newest over oldest (the series is most-recent-first, so that is first over
last); on the three-element series [121, 110, 100] this is
|(121/100)^(1/2) - 1| = 1/10. -/
theorem C4_growth_rate_newest_over_oldest (revs : List ℝ) (rg : Option ℝ)
    (h : 2 ≤ revs.length) :
    calcGrowthRate (.ok (some revs)) rg =
      |(revs.headD 0 / revs.getLastD 0) ^
        ((1 : ℝ) / ((revs.length : ℝ) - 1)) - 1| ∧
    calcGrowthRate (.ok (some [121, 110, 100])) none = 1 / 10 := by
  constructor
  · simp only [calcGrowthRate, if_pos h]
  · have hlen : (2 : ℕ) ≤ ([121, 110, 100] : List ℝ).length := by simp
    simp only [calcGrowthRate, if_pos hlen]
    have hhead : ([121, 110, 100] : List ℝ).headD 0 = 121 := rfl
    have hlast : ([121, 110, 100] : List ℝ).getLastD 0 = 100 := rfl
    have hlen3 : ((([121, 110, 100] : List ℝ).length : ℝ)) = 3 := by norm_num
    rw [hhead, hlast, hlen3,
      show (1 : ℝ) / ((3 : ℝ) - 1) = 1 / 2 by norm_num,
      show (121 : ℝ) / 100 = (11 / 10 : ℝ) ^ (2 : ℕ) by norm_num,
      ← Real.rpow_natCast ((11 : ℝ) / 10) 2,
      ← Real.rpow_mul (by norm_num : (0 : ℝ) ≤ 11 / 10)]
    norm_num

/-- Witness for C4 amended, at the two-element series [121, 100]. -/
theorem C4_growth_rate_newest_over_oldest_witness :
    calcGrowthRate (.ok (some [121, 100])) none =
      |(([121, 100] : List ℝ).headD 0 / ([121, 100] : List ℝ).getLastD 0) ^
        ((1 : ℝ) / ((([121, 100] : List ℝ).length : ℝ) - 1)) - 1| :=
  (C4_growth_rate_newest_over_oldest [121, 100] none (by norm_num)).1

/-- C8 counterexample: with a single year of history (fewer than two) and a
provided analyst growth estimate of exactly 0, the estimator returns 0.05,
not the provided estimate: the Python `or 0.05` treats a falsy (zero)
estimate as unavailable. -/
theorem C8_counterexample :
    calcGrowthRate (.ok (some [100])) (some 0) = 0.05 ∧ (0.05 : ℝ) ≠ 0 := by
  constructor
  · simp [calcGrowthRate, growthFallback]
  · norm_num

/-- C8 amended: with fewer than two years of revenue history the estimator
falls back to the analyst growth estimate when that is present and nonzero;
an absent, null or zero estimate yields the default 0.05; and an exception
raised while accessing history is swallowed and yields 0.05 directly. -/
theorem C8_growth_fallbacks (v : ℝ) (rg : Option ℝ) (revs : List ℝ)
    (hlen : revs.length < 2) (hv : v ≠ 0) :
    calcGrowthRate (.ok (some revs)) rg = growthFallback rg ∧
    calcGrowthRate (.ok none) rg = growthFallback rg ∧
    growthFallback (some v) = v ∧
    growthFallback (some 0) = 0.05 ∧
    growthFallback none = 0.05 ∧
    calcGrowthRate .exc rg = 0.05 := by
  refine ⟨?_, rfl, ?_, ?_, rfl, rfl⟩
  · have h2 : ¬ (2 ≤ revs.length) := by omega
    simp [calcGrowthRate, h2]
  · simp [growthFallback, hv]
  · simp [growthFallback]

/-- Witness for C8 amended, at a one-element history and the estimate
0.07. -/
theorem C8_growth_fallbacks_witness :
    calcGrowthRate (.ok (some [100])) (some 0.07) = growthFallback (some 0.07) ∧
    growthFallback (some (0.07 : ℝ)) = 0.07 ∧
    calcGrowthRate .exc (some 0.07) = 0.05 := by
  have h := C8_growth_fallbacks 0.07 (some 0.07) [100] (by norm_num) (by norm_num)
  exact ⟨h.1, h.2.2.1, h.2.2.2.2.2⟩
